import Mathlib

/-!
Verification of the FairScale exam-prep allocator
(`src/FairscaleExamPlanner.py`).

The core of the repository is two functions:

* `calculate_composite_weight` (lines 7-13): a fixed linear combination of
  four subject attributes;
* `fairscale_exam_allocate` (lines 16-53): an initial proportional
  allocation pass capped per subject, followed by a redistribution loop
  (at most 10 iterations) over the not-yet-capped subjects.

The Python source works on mutable dictionaries and floating-point
numbers and can raise `ZeroDivisionError` at two division sites
(line 29: `claim / total_claim`, line 44: `weight / total_weight`).
The embedding below models the numeric state over `ℚ` (the spec fixes
real-valued fractional days and treats rounding as a presentation
concern), models in-place mutation by functional record update, and
models the two fallible division sites with `Option`: a `none` result
corresponds exactly to an uncaught `ZeroDivisionError` in the source.
-/

namespace FairscaleExamPlanner

/-- One subject record.  The caller supplies `name`, the four attributes
and `desired_days`; `weight`, `claim` and `allocated` are written by the
allocator (source lines 20-22) before ever being read, so their initial
values never influence a result. -/
structure Subject where
  name : String
  preparation : ℚ
  syllabus : ℚ
  exam_weight : ℚ
  difficulty : ℚ
  desired_days : ℚ
  weight : ℚ := 0
  claim : ℚ := 0
  allocated : ℚ := 0
deriving DecidableEq

/-- Source lines 7-13: composite priority weight. -/
def calculate_composite_weight (sub : Subject) : ℚ :=
  let preparation := (100 - sub.preparation) * (35 / 100)
  let syllabus := sub.syllabus * (3 / 10)
  let exam := sub.exam_weight * (15 / 100)
  let difficulty := (100 - sub.difficulty) * (2 / 10)
  preparation + syllabus + exam + difficulty

/-- Source lines 19-22: the initialization loop writing `weight`,
`claim` and `allocated` into each record. -/
def initSubject (sub : Subject) : Subject :=
  let w := calculate_composite_weight sub
  { sub with weight := w, claim := w * sub.desired_days, allocated := 0 }

/-- Source line 24: `total_claim = sum(sub['claim'] for sub in subjects)`. -/
def totalClaim (subs : List Subject) : ℚ :=
  (subs.map (·.claim)).sum

/-- Source line 34 / 50: `sum(sub['allocated'] for sub in subjects)`. -/
def sumAllocated (subs : List Subject) : ℚ :=
  (subs.map (·.allocated)).sum

/-- Source lines 27-31: the first allocation pass.  Each loop iteration
evaluates `sub['claim'] / total_claim`; when `total_claim` is zero this
raises `ZeroDivisionError` on the first iteration, hence `none` exactly
when the list is non-empty and the divisor is zero. -/
def firstPass (total_claim total_days : ℚ) : List Subject → Option (List Subject)
  | [] => some []
  | sub :: rest =>
    if total_claim = 0 then none
    else
      match firstPass total_claim total_days rest with
      | none => none
      | some rest' =>
        some ({ sub with
          allocated := min ((sub.claim / total_claim) * total_days) sub.desired_days } :: rest')

/-- Source lines 43-48: the body of the `for sub in candidates` loop as a
per-record function.  Records failing the candidate test of line 38 are
left untouched; `total_weight` and `remaining` are fixed for the whole
round (they are read, never written, inside the `for`). -/
def roundStep (total_weight remaining : ℚ) (sub : Subject) : Subject :=
  if sub.allocated < sub.desired_days then
    { sub with
      allocated := min (sub.allocated + (sub.weight / total_weight) * remaining)
        sub.desired_days }
  else sub

/-- Source lines 37-51: the redistribution `while` loop.  `fuel` is the
number of iterations the counter still allows (10 at entry, line 35-37);
`remaining` is the loop variable of lines 34/50.  `none` models the
`ZeroDivisionError` of line 44 when the candidates' weights sum to zero. -/
def redistribute (total_days : ℚ) : ℕ → ℚ → List Subject → Option (List Subject)
  | 0, _, subs => some subs
  | fuel + 1, remaining, subs =>
    if 0 < remaining then
      let candidates := subs.filter (fun s => s.allocated < s.desired_days)
      if candidates = [] then some subs
      else
        let total_weight := (candidates.map (·.weight)).sum
        if total_weight = 0 then none
        else
          let subs' := subs.map (roundStep total_weight remaining)
          redistribute total_days fuel (total_days - sumAllocated subs') subs'
    else some subs

/-- Source lines 16-53: the FairScale allocator.  `none` models an
uncaught `ZeroDivisionError`; `some out` is the returned subject list. -/
def fairscale_exam_allocate (subjects : List Subject) (total_days : ℚ) :
    Option (List Subject) :=
  let subs := subjects.map initSubject
  let total_claim := totalClaim subs
  match firstPass total_claim total_days subs with
  | none => none
  | some subs1 => redistribute total_days 10 (total_days - sumAllocated subs1) subs1

/-- The documented input ranges of the four attributes (spec section 3
and the form bounds of source lines 83-86). -/
def ValidAttrs (s : Subject) : Prop :=
  1 ≤ s.preparation ∧ s.preparation ≤ 100 ∧
  1 ≤ s.syllabus ∧ s.syllabus ≤ 100 ∧
  1 ≤ s.exam_weight ∧ s.exam_weight ≤ 100 ∧
  1 ≤ s.difficulty ∧ s.difficulty ≤ 100

instance (s : Subject) : Decidable (ValidAttrs s) := by
  unfold ValidAttrs; infer_instance

/-- A caller-supplied record within the documented ranges:
attributes in `[1,100]` and a positive desired-days cap. -/
def ValidSubject (s : Subject) : Prop :=
  ValidAttrs s ∧ 0 < s.desired_days

instance (s : Subject) : Decidable (ValidSubject s) := by
  unfold ValidSubject; infer_instance

/-- The per-record assignment of source lines 28-31. -/
def firstAlloc (total_claim total_days : ℚ) (sub : Subject) : Subject :=
  { sub with allocated := min ((sub.claim / total_claim) * total_days) sub.desired_days }

/-- State invariant carried through the loop: every record has a
positive weight, a non-negative allocation, and respects its cap. -/
def AllocInv (subs : List Subject) : Prop :=
  ∀ s ∈ subs, 0 < s.weight ∧ 0 ≤ s.allocated ∧ s.allocated ≤ s.desired_days

/-- The loop of lines 37-51 has nothing left to do on this state: either
the remaining budget is exhausted or no subject is below its cap.  A
state returned for any other reason was cut off by the iteration limit. -/
def Converged (total_days : ℚ) (subs : List Subject) : Prop :=
  total_days - sumAllocated subs ≤ 0 ∨
    subs.filter (fun s => s.allocated < s.desired_days) = []

/-- Sum of the caller-supplied caps. -/
def sumDesired (subs : List Subject) : ℚ :=
  (subs.map (·.desired_days)).sum

/-! ### Concrete data used by the witnesses -/

/-- A subject with all four attributes at the form defaults' midpoint 50
and a 7-day cap; its composite weight is exactly 50, its claim 350. -/
def sMid : Subject :=
  { name := "Surgery", preparation := 50, syllabus := 50, exam_weight := 50,
    difficulty := 50, desired_days := 7 }

/-- `fairscale_exam_allocate [sMid] 30`: the single subject is capped at
its 7-day demand in the first pass and the loop stops with no candidates. -/
def rMid30 : Subject :=
  { name := "Surgery", preparation := 50, syllabus := 50, exam_weight := 50,
    difficulty := 50, desired_days := 7, weight := 50, claim := 350, allocated := 7 }

/-- `fairscale_exam_allocate [sMid] 5`: the whole 5-day budget goes to the
single subject and the loop is never entered (`remaining = 0`). -/
def rMid5 : Subject :=
  { name := "Surgery", preparation := 50, syllabus := 50, exam_weight := 50,
    difficulty := 50, desired_days := 7, weight := 50, claim := 350, allocated := 5 }

/-- A second subject used to exhibit permutation equivariance. -/
def sMed : Subject :=
  { name := "Medicine", preparation := 20, syllabus := 80, exam_weight := 90,
    difficulty := 60, desired_days := 10 }

/-- Scenario 4 of the spec: a subject with `desired_days = 0` (attributes
all in range), making every claim — and hence `total_claim` — zero. -/
def sZero : Subject :=
  { name := "Gynae", preparation := 50, syllabus := 50, exam_weight := 50,
    difficulty := 50, desired_days := 0 }

/-- `fairscale_exam_allocate [sMid] (-1)`: the claim share of the sole
subject is `(350/350) * (-1) = -1`, so the first pass assigns `-1` days
and the loop never runs (`remaining = 0`). -/
def rMidNeg : Subject :=
  { name := "Surgery", preparation := 50, syllabus := 50, exam_weight := 50,
    difficulty := 50, desired_days := 7, weight := 50, claim := 350, allocated := -1 }

/-- `sMid` with a larger syllabus (60 instead of 50), hence a strictly
larger composite weight (53 instead of 50). -/
def sMidBoost : Subject :=
  { name := "Surgery", preparation := 50, syllabus := 60, exam_weight := 50,
    difficulty := 50, desired_days := 7 }

/-- Monotonicity counterexample, first input (three subjects, budget 38). -/
def c6a : Subject :=
  { name := "A", preparation := 83, syllabus := 5, exam_weight := 16,
    difficulty := 43, desired_days := 17 }

def c6b : Subject :=
  { name := "B", preparation := 92, syllabus := 7, exam_weight := 35,
    difficulty := 82, desired_days := 36 }

def c6c : Subject :=
  { name := "C", preparation := 87, syllabus := 56, exam_weight := 88,
    difficulty := 67, desired_days := 17 }

/-- `c6c` with its syllabus raised from 56 to 62: its composite weight
grows from `823/20` to `859/20`; nothing else changes. -/
def c6cBoost : Subject :=
  { name := "C", preparation := 87, syllabus := 62, exam_weight := 88,
    difficulty := 67, desired_days := 17 }

/-- Output of `fairscale_exam_allocate [c6a, c6b, c6c] 38` (one
redistribution iteration). -/
def c6outA : Subject :=
  { name := "A", preparation := 83, syllabus := 5, exam_weight := 16,
    difficulty := 43, desired_days := 17, weight := 85/4, claim := 1445/4,
    allocated := 3866531/435624 }

def c6outB : Subject :=
  { name := "B", preparation := 92, syllabus := 7, exam_weight := 35,
    difficulty := 82, desired_days := 36, weight := 55/4, claim := 495,
    allocated := 5281573/435624 }

def c6outC : Subject :=
  { name := "C", preparation := 87, syllabus := 56, exam_weight := 88,
    difficulty := 67, desired_days := 17, weight := 823/20, claim := 13991/20,
    allocated := 17 }

/-- Output of `fairscale_exam_allocate [c6a, c6b, c6cBoost] 38`. -/
def c6outABoost : Subject :=
  { name := "A", preparation := 83, syllabus := 5, exam_weight := 16,
    difficulty := 43, desired_days := 17, weight := 85/4, claim := 1445/4,
    allocated := 3975773/444192 }

def c6outBBoost : Subject :=
  { name := "B", preparation := 92, syllabus := 7, exam_weight := 35,
    difficulty := 82, desired_days := 36, weight := 55/4, claim := 495,
    allocated := 5352259/444192 }

def c6outCBoost : Subject :=
  { name := "C", preparation := 87, syllabus := 62, exam_weight := 88,
    difficulty := 67, desired_days := 17, weight := 859/20, claim := 14603/20,
    allocated := 17 }

/-! Twelve-subject instance on which the redistribution loop hits its
10-iteration limit: one heavy subject (`c5s0`) is capped by the first
pass, subjects `c5s1`-`c5s10` reach their caps one per iteration, and
the light absorber `c5s11` is still `75858145640357830497/11420809596168946750`
days (about 6.64 days) short of its cap when the counter reaches 10,
although the budget `c5T` covers the total demand. -/
def c5s0 : Subject :=
  { name := "S0", preparation := 1, syllabus := 100, exam_weight := 100,
    difficulty := 1, desired_days := 1000000 }

def c5s1 : Subject :=
  { name := "S1", preparation := 100, syllabus := 64, exam_weight := 100,
    difficulty := 1, desired_days := 1050300000/34099 }

def c5s2 : Subject :=
  { name := "S2", preparation := 100, syllabus := 1, exam_weight := 98,
    difficulty := 16, desired_days := 101448010200000/975396649 }

def c5s3 : Subject :=
  { name := "S3", preparation := 100, syllabus := 1, exam_weight := 100,
    difficulty := 83, desired_days := 169981643674040000/2250256258399 }

def c5s4 : Subject :=
  { name := "S4", preparation := 100, syllabus := 1, exam_weight := 70,
    difficulty := 99, desired_days := 6551590489453592000/135004362830571 }

def c5s5 : Subject :=
  { name := "S5", preparation := 100, syllabus := 1, exam_weight := 41,
    difficulty := 100, desired_days := 48089263096692696000/1611550484756423 }

def c5s6 : Subject :=
  { name := "S6", preparation := 100, syllabus := 1, exam_weight := 22,
    difficulty := 99, desired_days := 97135844438119467408800/5366558426878027821 }

def c5s7 : Subject :=
  { name := "S7", preparation := 100, syllabus := 1, exam_weight := 13,
    difficulty := 100, desired_days := 47826630090374307938640/4380576563672090951 }

def c5s8 : Subject :=
  { name := "S8", preparation := 100, syllabus := 1, exam_weight := 4,
    difficulty := 98, desired_days := 38093387261658861376520/5968982510331325513 }

def c5s9 : Subject :=
  { name := "S9", preparation := 100, syllabus := 1, exam_weight := 2,
    difficulty := 99, desired_days := 204388297992610743790184/51595022356047810783 }

def c5s10 : Subject :=
  { name := "S10", preparation := 100, syllabus := 1, exam_weight := 1,
    difficulty := 100, desired_days := 454935513949852897238692608/203146280194703600042015 }

def c5s11 : Subject :=
  { name := "S11", preparation := 100, syllabus := 1, exam_weight := 2,
    difficulty := 100, desired_days := 152889042616731126545500344/50690806560212023392005 }

def c5r0 : Subject :=
  { name := "S0", preparation := 1, syllabus := 100, exam_weight := 100,
    difficulty := 1, desired_days := 1000000, weight := 1989/20,
    claim := 99450000, allocated := 1000000 }

def c5r1 : Subject :=
  { name := "S1", preparation := 100, syllabus := 64, exam_weight := 100,
    difficulty := 1, desired_days := 1050300000/34099, weight := 54,
    claim := 56716200000/34099, allocated := 1050300000/34099 }

def c5r2 : Subject :=
  { name := "S2", preparation := 100, syllabus := 1, exam_weight := 98,
    difficulty := 16, desired_days := 101448010200000/975396649, weight := 159/5,
    claim := 3226046724360000/975396649, allocated := 101448010200000/975396649 }

def c5r3 : Subject :=
  { name := "S3", preparation := 100, syllabus := 1, exam_weight := 100,
    difficulty := 83, desired_days := 169981643674040000/2250256258399, weight := 187/10,
    claim := 3178656736704548000/2250256258399, allocated := 169981643674040000/2250256258399 }

def c5r4 : Subject :=
  { name := "S4", preparation := 100, syllabus := 1, exam_weight := 70,
    difficulty := 99, desired_days := 6551590489453592000/135004362830571, weight := 11,
    claim := 72067495383989512000/135004362830571, allocated := 6551590489453592000/135004362830571 }

def c5r5 : Subject :=
  { name := "S5", preparation := 100, syllabus := 1, exam_weight := 41,
    difficulty := 100, desired_days := 48089263096692696000/1611550484756423, weight := 129/20,
    claim := 310175746973667889200/1611550484756423, allocated := 48089263096692696000/1611550484756423 }

def c5r6 : Subject :=
  { name := "S6", preparation := 100, syllabus := 1, exam_weight := 22,
    difficulty := 99, desired_days := 97135844438119467408800/5366558426878027821, weight := 19/5,
    claim := 369116208864853976153440/5366558426878027821, allocated := 97135844438119467408800/5366558426878027821 }

def c5r7 : Subject :=
  { name := "S7", preparation := 100, syllabus := 1, exam_weight := 13,
    difficulty := 100, desired_days := 47826630090374307938640/4380576563672090951, weight := 9/4,
    claim := 107609917703342192861940/4380576563672090951, allocated := 47826630090374307938640/4380576563672090951 }

def c5r8 : Subject :=
  { name := "S8", preparation := 100, syllabus := 1, exam_weight := 4,
    difficulty := 98, desired_days := 38093387261658861376520/5968982510331325513, weight := 13/10,
    claim := 49521403440156519789476/5968982510331325513, allocated := 38093387261658861376520/5968982510331325513 }

def c5r9 : Subject :=
  { name := "S9", preparation := 100, syllabus := 1, exam_weight := 2,
    difficulty := 99, desired_days := 204388297992610743790184/51595022356047810783, weight := 4/5,
    claim := 817553191970442975160736/257975111780239053915, allocated := 204388297992610743790184/51595022356047810783 }

def c5r10 : Subject :=
  { name := "S10", preparation := 100, syllabus := 1, exam_weight := 1,
    difficulty := 100, desired_days := 454935513949852897238692608/203146280194703600042015, weight := 9/20,
    claim := 1023604906387169018787058368/1015731400973518000210075, allocated := 454935513949852897238692608/203146280194703600042015 }

def c5r11 : Subject :=
  { name := "S11", preparation := 100, syllabus := 1, exam_weight := 2,
    difficulty := 100, desired_days := 152889042616731126545500344/50690806560212023392005, weight := 3/5,
    claim := 458667127850193379636501032/253454032801060116960025, allocated := 1089659637654515885208233067/362077189715800167085750 }

def c5T : ℚ := 3595625788257648342503317370925013900642699903097383/2696706067158803938522356468973481107376423250

/-! Twelve-subject instance refuting own-allocation monotonicity.
`o6s11` (the light absorber) has its syllabus raised by `1/10^8` in
`o6s11b`, raising its weight by `3/10^9`.  This tips subject `o6s10`
just below its round-9 cap threshold: in the first run `o6s10` caps in
round 9 and round 10 hands the whole bounced remainder to `o6s11`; in
the boosted run `o6s10` stays a candidate, soaks half of round 10, and
the loop hits its 10-iteration limit before that half can return — so
the boosted subject ends about `6.2e-6` days LOWER. -/
def o6s0 : Subject :=
  { name := "H", preparation := 1, syllabus := 100,
    exam_weight := 100, difficulty := 1,
    desired_days := 100 }

def o6s1 : Subject :=
  { name := "c1", preparation := 100, syllabus := 64,
    exam_weight := 100, difficulty := 1,
    desired_days := 2549637/430504 }

def o6s2 : Subject :=
  { name := "c2", preparation := 100, syllabus := 1,
    exam_weight := 98, difficulty := 16,
    desired_days := 14572911/914908 }

def o6s3 : Subject :=
  { name := "c3", preparation := 100, syllabus := 1,
    exam_weight := 100, difficulty := 83,
    desired_days := 3825065/375812 }

def o6s4 : Subject :=
  { name := "c4", preparation := 100, syllabus := 1,
    exam_weight := 70, difficulty := 99,
    desired_days := 1487607/251249 }

def o6s5 : Subject :=
  { name := "c5", preparation := 100, syllabus := 1,
    exam_weight := 41, difficulty := 100,
    desired_days := 3330130/990059 }

def o6s6 : Subject :=
  { name := "c6", preparation := 100, syllabus := 1,
    exam_weight := 22, difficulty := 99,
    desired_days := 466271/242253 }

def o6s7 : Subject :=
  { name := "c7", preparation := 100, syllabus := 1,
    exam_weight := 13, difficulty := 100,
    desired_days := 1039699/931310 }

def o6s8 : Subject :=
  { name := "c8", preparation := 100, syllabus := 1,
    exam_weight := 4, difficulty := 98,
    desired_days := 544603/855724 }

def o6s9 : Subject :=
  { name := "amp", preparation := 100, syllabus := 1,
    exam_weight := 98, difficulty := 75,
    desired_days := 9353312/699303 }

def o6s10 : Subject :=
  { name := "flip", preparation := 100, syllabus := 1,
    exam_weight := 2, difficulty := 98,
    desired_days := 16630386044059/34115432362365 }

def o6s11 : Subject :=
  { name := "target", preparation := 100, syllabus := 1,
    exam_weight := 2, difficulty := 98,
    desired_days := 10000 }

/-- `o6s11` with syllabus `1 + 1/10^8`: weight `1 + 3/10^9`. -/
def o6s11b : Subject :=
  { name := "target", preparation := 100, syllabus := 100000001/100000000,
    exam_weight := 2, difficulty := 98,
    desired_days := 10000 }

/-- Output of the first run (budget 300). -/
def o6r0 : Subject :=
  { name := "H", preparation := 1, syllabus := 100,
    exam_weight := 100, difficulty := 1,
    desired_days := 100, weight := 1989/20,
    claim := 9945, allocated := 100 }

def o6r1 : Subject :=
  { name := "c1", preparation := 100, syllabus := 64,
    exam_weight := 100, difficulty := 1,
    desired_days := 2549637/430504, weight := 54,
    claim := 68840199/215252, allocated := 2549637/430504 }

def o6r2 : Subject :=
  { name := "c2", preparation := 100, syllabus := 1,
    exam_weight := 98, difficulty := 16,
    desired_days := 14572911/914908, weight := 159/5,
    claim := 2317092849/4574540, allocated := 14572911/914908 }

def o6r3 : Subject :=
  { name := "c3", preparation := 100, syllabus := 1,
    exam_weight := 100, difficulty := 83,
    desired_days := 3825065/375812, weight := 187/10,
    claim := 143057431/751624, allocated := 3825065/375812 }

def o6r4 : Subject :=
  { name := "c4", preparation := 100, syllabus := 1,
    exam_weight := 70, difficulty := 99,
    desired_days := 1487607/251249, weight := 11,
    claim := 16363677/251249, allocated := 1487607/251249 }

def o6r5 : Subject :=
  { name := "c5", preparation := 100, syllabus := 1,
    exam_weight := 41, difficulty := 100,
    desired_days := 3330130/990059, weight := 129/20,
    claim := 42958677/1980118, allocated := 3330130/990059 }

def o6r6 : Subject :=
  { name := "c6", preparation := 100, syllabus := 1,
    exam_weight := 22, difficulty := 99,
    desired_days := 466271/242253, weight := 19/5,
    claim := 8859149/1211265, allocated := 466271/242253 }

def o6r7 : Subject :=
  { name := "c7", preparation := 100, syllabus := 1,
    exam_weight := 13, difficulty := 100,
    desired_days := 1039699/931310, weight := 9/4,
    claim := 9357291/3725240, allocated := 1039699/931310 }

def o6r8 : Subject :=
  { name := "c8", preparation := 100, syllabus := 1,
    exam_weight := 4, difficulty := 98,
    desired_days := 544603/855724, weight := 13/10,
    claim := 7079839/8557240, allocated := 544603/855724 }

def o6r9 : Subject :=
  { name := "amp", preparation := 100, syllabus := 1,
    exam_weight := 98, difficulty := 75,
    desired_days := 9353312/699303, weight := 20,
    claim := 187066240/699303, allocated := 9353312/699303 }

def o6r10 : Subject :=
  { name := "flip", preparation := 100, syllabus := 1,
    exam_weight := 2, difficulty := 98,
    desired_days := 16630386044059/34115432362365, weight := 1,
    claim := 16630386044059/34115432362365, allocated := 16630386044059/34115432362365 }

def o6r11 : Subject :=
  { name := "target", preparation := 100, syllabus := 1,
    exam_weight := 2, difficulty := 98,
    desired_days := 10000, weight := 1,
    claim := 10000, allocated := 1127753805640810680683373417902572765726540173459451085392087/7989950994387879828089476521186226715350011604345770473496 }

/-- Output of the boosted run. -/
def o6b0 : Subject :=
  { name := "H", preparation := 1, syllabus := 100,
    exam_weight := 100, difficulty := 1,
    desired_days := 100, weight := 1989/20,
    claim := 9945, allocated := 100 }

def o6b1 : Subject :=
  { name := "c1", preparation := 100, syllabus := 64,
    exam_weight := 100, difficulty := 1,
    desired_days := 2549637/430504, weight := 54,
    claim := 68840199/215252, allocated := 2549637/430504 }

def o6b2 : Subject :=
  { name := "c2", preparation := 100, syllabus := 1,
    exam_weight := 98, difficulty := 16,
    desired_days := 14572911/914908, weight := 159/5,
    claim := 2317092849/4574540, allocated := 14572911/914908 }

def o6b3 : Subject :=
  { name := "c3", preparation := 100, syllabus := 1,
    exam_weight := 100, difficulty := 83,
    desired_days := 3825065/375812, weight := 187/10,
    claim := 143057431/751624, allocated := 3825065/375812 }

def o6b4 : Subject :=
  { name := "c4", preparation := 100, syllabus := 1,
    exam_weight := 70, difficulty := 99,
    desired_days := 1487607/251249, weight := 11,
    claim := 16363677/251249, allocated := 1487607/251249 }

def o6b5 : Subject :=
  { name := "c5", preparation := 100, syllabus := 1,
    exam_weight := 41, difficulty := 100,
    desired_days := 3330130/990059, weight := 129/20,
    claim := 42958677/1980118, allocated := 3330130/990059 }

def o6b6 : Subject :=
  { name := "c6", preparation := 100, syllabus := 1,
    exam_weight := 22, difficulty := 99,
    desired_days := 466271/242253, weight := 19/5,
    claim := 8859149/1211265, allocated := 466271/242253 }

def o6b7 : Subject :=
  { name := "c7", preparation := 100, syllabus := 1,
    exam_weight := 13, difficulty := 100,
    desired_days := 1039699/931310, weight := 9/4,
    claim := 9357291/3725240, allocated := 1039699/931310 }

def o6b8 : Subject :=
  { name := "c8", preparation := 100, syllabus := 1,
    exam_weight := 4, difficulty := 98,
    desired_days := 544603/855724, weight := 13/10,
    claim := 7079839/8557240, allocated := 544603/855724 }

def o6b9 : Subject :=
  { name := "amp", preparation := 100, syllabus := 1,
    exam_weight := 98, difficulty := 75,
    desired_days := 9353312/699303, weight := 20,
    claim := 187066240/699303, allocated := 9353312/699303 }

def o6b10 : Subject :=
  { name := "flip", preparation := 100, syllabus := 1,
    exam_weight := 2, difficulty := 98,
    desired_days := 16630386044059/34115432362365, weight := 1,
    claim := 16630386044059/34115432362365, allocated := 16630386044059/34115432362365 }

def o6b11 : Subject :=
  { name := "target", preparation := 100, syllabus := 100000001/100000000,
    exam_weight := 2, difficulty := 98,
    desired_days := 10000, weight := 1000000003/1000000000,
    claim := 1000000003/100000, allocated := 621287068438809364537503124034587063293545554178215182817296376502318244163632190870972576324687295348162689255189986143767/4401717310337016230481108628470306972283760864685211172662751032839892333994645072196561907882165483149837064254511797720 }


/-! ### Basic facts about the composite weight -/

/-- Over the documented ranges the composite weight is at least
`0.45 = 9/20` (attained at `preparation = difficulty = 100`,
`syllabus = exam_weight = 1`). -/
lemma ccw_ge_min (s : Subject) (h : ValidAttrs s) :
    9 / 20 ≤ calculate_composite_weight s := by
  obtain ⟨h1, h2, h3, h4, h5, h6, h7, h8⟩ := h
  simp only [calculate_composite_weight]
  linarith

lemma ccw_pos (s : Subject) (h : ValidAttrs s) :
    0 < calculate_composite_weight s :=
  lt_of_lt_of_le (by norm_num) (ccw_ge_min s h)

@[simp] lemma initSubject_weight (s : Subject) :
    (initSubject s).weight = calculate_composite_weight s := rfl

@[simp] lemma initSubject_claim (s : Subject) :
    (initSubject s).claim = calculate_composite_weight s * s.desired_days := rfl

@[simp] lemma initSubject_allocated (s : Subject) :
    (initSubject s).allocated = 0 := rfl

@[simp] lemma initSubject_desired (s : Subject) :
    (initSubject s).desired_days = s.desired_days := rfl

/-! ### The first pass as a map -/

lemma firstPass_eq_map (tc T : ℚ) (htc : tc ≠ 0) (l : List Subject) :
    firstPass tc T l = some (l.map (firstAlloc tc T)) := by
  induction l with
  | nil => rfl
  | cons s rest ih => simp [firstPass, htc, ih, firstAlloc]

lemma firstPass_zero (T : ℚ) (s : Subject) (l : List Subject) :
    firstPass 0 T (s :: l) = none := by
  simp [firstPass]

/-! ### Allocation invariant through the redistribution loop -/

lemma candidates_weight_pos (subs : List Subject)
    (hinv : ∀ s ∈ subs, 0 < s.weight)
    (hne : subs.filter (fun s => s.allocated < s.desired_days) ≠ []) :
    0 < ((subs.filter (fun s => s.allocated < s.desired_days)).map (·.weight)).sum := by
  apply List.sum_pos
  · intro x hx
    obtain ⟨s, hs, rfl⟩ := List.mem_map.mp hx
    exact hinv s (List.mem_of_mem_filter hs)
  · simpa using hne

lemma roundStep_inv (W R : ℚ) (hW : 0 < W) (hR : 0 < R) (s : Subject)
    (h : 0 < s.weight ∧ 0 ≤ s.allocated ∧ s.allocated ≤ s.desired_days) :
    0 < (roundStep W R s).weight ∧ 0 ≤ (roundStep W R s).allocated ∧
      (roundStep W R s).allocated ≤ (roundStep W R s).desired_days := by
  obtain ⟨hw, h0, hd⟩ := h
  unfold roundStep
  split
  · refine ⟨hw, ?_, ?_⟩
    · exact le_min (by positivity) (le_trans h0 hd)
    · exact min_le_right _ _
  · exact ⟨hw, h0, hd⟩

lemma redistribute_inv (T : ℚ) :
    ∀ (fuel : ℕ) (R : ℚ) (subs out : List Subject), AllocInv subs →
      redistribute T fuel R subs = some out → AllocInv out := by
  intro fuel
  induction fuel with
  | zero =>
    intro R subs out hinv h
    simp only [redistribute, Option.some.injEq] at h
    exact h ▸ hinv
  | succ fuel ih =>
    intro R subs out hinv h
    simp only [redistribute] at h
    split at h
    · split at h
      · exact (Option.some.injEq _ _ ▸ h) ▸ hinv
      · split at h
        · exact absurd h (by simp)
        · rename_i hR hne hW
          refine ih _ _ _ ?_ h
          intro s' hs'
          obtain ⟨s, hs, rfl⟩ := List.mem_map.mp hs'
          have hWpos : 0 < ((subs.filter
              (fun s => s.allocated < s.desired_days)).map (·.weight)).sum :=
            candidates_weight_pos subs (fun s hs => (hinv s hs).1) hne
          exact roundStep_inv _ _ hWpos hR s (hinv s hs)
    · exact (Option.some.injEq _ _ ▸ h) ▸ hinv

/-! ### Unfolding the allocator -/

@[simp] lemma sumAllocated_nil : sumAllocated [] = 0 := rfl

@[simp] lemma sumAllocated_cons (s : Subject) (l : List Subject) :
    sumAllocated (s :: l) = s.allocated + sumAllocated l := by
  simp [sumAllocated]

@[simp] lemma totalClaim_nil : totalClaim [] = 0 := rfl

@[simp] lemma totalClaim_cons (s : Subject) (l : List Subject) :
    totalClaim (s :: l) = s.claim + totalClaim l := by
  simp [totalClaim]

@[simp] lemma sumDesired_nil : sumDesired [] = 0 := rfl

@[simp] lemma sumDesired_cons (s : Subject) (l : List Subject) :
    sumDesired (s :: l) = s.desired_days + sumDesired l := by
  simp [sumDesired]

lemma fairscale_nil (T : ℚ) : fairscale_exam_allocate [] T = some [] := by
  simp [fairscale_exam_allocate, firstPass, redistribute, totalClaim, sumAllocated]

lemma totalClaim_init_pos (subjects : List Subject)
    (hv : ∀ s ∈ subjects, ValidSubject s) (hne : subjects ≠ []) :
    0 < totalClaim (subjects.map initSubject) := by
  unfold totalClaim
  apply List.sum_pos
  · intro x hx
    simp only [List.map_map, List.mem_map] at hx
    obtain ⟨s, hs, rfl⟩ := hx
    simp only [Function.comp_apply, initSubject_claim]
    exact mul_pos (ccw_pos s (hv s hs).1) (hv s hs).2
  · simpa using hne

lemma fairscale_eq_of_claim_ne (subjects : List Subject) (T : ℚ)
    (htc : totalClaim (subjects.map initSubject) ≠ 0) :
    fairscale_exam_allocate subjects T =
      redistribute T 10
        (T - sumAllocated ((subjects.map initSubject).map
          (firstAlloc (totalClaim (subjects.map initSubject)) T)))
        ((subjects.map initSubject).map
          (firstAlloc (totalClaim (subjects.map initSubject)) T)) := by
  simp only [fairscale_exam_allocate]
  rw [firstPass_eq_map _ _ htc]

lemma firstAlloc_mem_inv (tc T : ℚ) (htc : 0 < tc) (hT : 0 < T) (s : Subject)
    (hw : 0 < s.weight) (hc : 0 < s.claim) (hd : 0 < s.desired_days) :
    0 < (firstAlloc tc T s).weight ∧ 0 ≤ (firstAlloc tc T s).allocated ∧
      (firstAlloc tc T s).allocated ≤ (firstAlloc tc T s).desired_days := by
  refine ⟨hw, ?_, min_le_right _ _⟩
  have : 0 < (s.claim / tc) * T := by positivity
  exact le_min this.le hd.le

lemma initSubject_mem_valid (s : Subject) (h : ValidSubject s) :
    0 < (initSubject s).weight ∧ 0 < (initSubject s).claim ∧
      0 < (initSubject s).desired_days := by
  refine ⟨ccw_pos s h.1, ?_, h.2⟩
  simpa using mul_pos (ccw_pos s h.1) h.2

/-- After the first pass on a valid subject list the loop invariant holds. -/
lemma firstPass_alloc_inv (subjects : List Subject) (T : ℚ)
    (hv : ∀ s ∈ subjects, ValidSubject s) (hT : 0 < T)
    (htc : 0 < totalClaim (subjects.map initSubject)) :
    AllocInv ((subjects.map initSubject).map
      (firstAlloc (totalClaim (subjects.map initSubject)) T)) := by
  intro s' hs'
  simp only [List.map_map, List.mem_map] at hs'
  obtain ⟨s, hs, rfl⟩ := hs'
  obtain ⟨hw, hc, hd⟩ := initSubject_mem_valid s (hv s hs)
  exact firstAlloc_mem_inv _ _ htc hT _ hw hc hd

/-- The allocator never returns a state violating the cap invariant. -/
lemma fairscale_some_inv (subjects : List Subject) (T : ℚ) (out : List Subject)
    (hv : ∀ s ∈ subjects, ValidSubject s) (hT : 0 < T)
    (hout : fairscale_exam_allocate subjects T = some out) : AllocInv out := by
  rcases eq_or_ne subjects [] with rfl | hne
  · rw [fairscale_nil] at hout
    obtain rfl : ([] : List Subject) = out := Option.some.injEq _ _ ▸ hout
    intro s hs; cases hs
  · have htc := totalClaim_init_pos subjects hv hne
    rw [fairscale_eq_of_claim_ne subjects T htc.ne'] at hout
    exact redistribute_inv T 10 _ _ out (firstPass_alloc_inv subjects T hv hT htc) hout

/-! ### The budget is never exceeded -/

lemma sum_firstAlloc_le (tc T : ℚ) :
    ∀ l : List Subject, sumAllocated (l.map (firstAlloc tc T)) ≤ totalClaim l * (T / tc) := by
  intro l
  induction l with
  | nil => simp
  | cons s rest ih =>
    simp only [List.map_cons, sumAllocated_cons, totalClaim_cons]
    have hhead : (firstAlloc tc T s).allocated ≤ (s.claim / tc) * T :=
      min_le_left _ _
    calc (firstAlloc tc T s).allocated + sumAllocated (rest.map (firstAlloc tc T))
        ≤ (s.claim / tc) * T + totalClaim rest * (T / tc) := add_le_add hhead ih
      _ = (s.claim + totalClaim rest) * (T / tc) := by ring

lemma sum_roundStep_le (W R : ℚ) :
    ∀ l : List Subject, sumAllocated (l.map (roundStep W R)) ≤ sumAllocated l +
      ((l.filter (fun s => s.allocated < s.desired_days)).map (·.weight)).sum * (R / W) := by
  intro l
  induction l with
  | nil => simp
  | cons s rest ih =>
    by_cases hc : s.allocated < s.desired_days
    · have hhead : (roundStep W R s).allocated ≤ s.allocated + s.weight * (R / W) := by
        have h1 : (roundStep W R s).allocated ≤ s.allocated + (s.weight / W) * R := by
          simp only [roundStep, if_pos hc]
          exact min_le_left _ _
        have h2 : s.allocated + (s.weight / W) * R = s.allocated + s.weight * (R / W) := by
          ring
        rw [h2] at h1
        exact h1
      have hexp : (s.weight + ((rest.filter (fun s => s.allocated < s.desired_days)).map
            (·.weight)).sum) * (R / W) = s.weight * (R / W) +
          ((rest.filter (fun s => s.allocated < s.desired_days)).map
            (·.weight)).sum * (R / W) := by ring
      simp only [List.map_cons, sumAllocated_cons]
      rw [List.filter_cons_of_pos (by simpa using hc), List.map_cons, List.sum_cons, hexp]
      linarith [ih]
    · have hhead : (roundStep W R s).allocated = s.allocated := by
        simp [roundStep, hc]
      simp only [List.map_cons, sumAllocated_cons]
      rw [List.filter_cons_of_neg (by simpa using hc), hhead]
      linarith [ih]

lemma redistribute_sum_le (T : ℚ) :
    ∀ (fuel : ℕ) (R : ℚ) (subs out : List Subject), sumAllocated subs ≤ T →
      R = T - sumAllocated subs → redistribute T fuel R subs = some out →
      sumAllocated out ≤ T := by
  intro fuel
  induction fuel with
  | zero =>
    intro R subs out hsum _ h
    simp only [redistribute, Option.some.injEq] at h
    exact h ▸ hsum
  | succ fuel ih =>
    intro R subs out hsum hR h
    simp only [redistribute] at h
    split at h
    · split at h
      · exact (Option.some.injEq _ _ ▸ h) ▸ hsum
      · split at h
        · exact absurd h (by simp)
        · rename_i hRpos hne hW
          set W := ((subs.filter (fun s => s.allocated < s.desired_days)).map
            (·.weight)).sum with hWdef
          have hcancel : W * (R / W) = R := by
            rw [mul_comm]; exact div_mul_cancel₀ R hW
          have hstep : sumAllocated (subs.map (roundStep W R)) ≤ sumAllocated subs + R := by
            have := sum_roundStep_le W R subs
            rw [← hWdef] at this
            linarith [this]
          have hle : sumAllocated (subs.map (roundStep W R)) ≤ T := by
            linarith [hstep]
          exact ih _ _ _ hle rfl h
    · exact (Option.some.injEq _ _ ▸ h) ▸ hsum

/-- The allocator never hands out more than the budget. -/
lemma fairscale_sum_le (subjects : List Subject) (T : ℚ) (out : List Subject)
    (hv : ∀ s ∈ subjects, ValidSubject s) (hT : 0 < T)
    (hout : fairscale_exam_allocate subjects T = some out) : sumAllocated out ≤ T := by
  rcases eq_or_ne subjects [] with rfl | hne
  · rw [fairscale_nil] at hout
    obtain rfl : ([] : List Subject) = out := Option.some.injEq _ _ ▸ hout
    simpa using hT.le
  · have htc := totalClaim_init_pos subjects hv hne
    rw [fairscale_eq_of_claim_ne subjects T htc.ne'] at hout
    have hclaims : totalClaim ((subjects.map initSubject)) *
        (T / totalClaim (subjects.map initSubject)) = T := by
      field_simp
    have hfirst : sumAllocated ((subjects.map initSubject).map
        (firstAlloc (totalClaim (subjects.map initSubject)) T)) ≤ T := by
      have := sum_firstAlloc_le (totalClaim (subjects.map initSubject)) T
        (subjects.map initSubject)
      rw [hclaims] at this
      exact this
    exact redistribute_sum_le T 10 _ _ out hfirst rfl hout

/-! ### The caller-supplied caps survive the whole computation -/

@[simp] lemma roundStep_desired (W R : ℚ) (s : Subject) :
    (roundStep W R s).desired_days = s.desired_days := by
  unfold roundStep; split <;> rfl

@[simp] lemma firstAlloc_desired (tc T : ℚ) (s : Subject) :
    (firstAlloc tc T s).desired_days = s.desired_days := rfl

lemma redistribute_desired (T : ℚ) :
    ∀ (fuel : ℕ) (R : ℚ) (subs out : List Subject),
      redistribute T fuel R subs = some out →
      out.map (·.desired_days) = subs.map (·.desired_days) := by
  intro fuel
  induction fuel with
  | zero =>
    intro R subs out h
    simp only [redistribute, Option.some.injEq] at h
    rw [h]
  | succ fuel ih =>
    intro R subs out h
    simp only [redistribute] at h
    split at h
    · split at h
      · obtain rfl := Option.some.inj h; rfl
      · split at h
        · exact absurd h (by simp)
        · rw [ih _ _ _ h]
          simp [List.map_map, Function.comp]
    · obtain rfl := Option.some.inj h; rfl

lemma fairscale_desired (subjects : List Subject) (T : ℚ) (out : List Subject)
    (hout : fairscale_exam_allocate subjects T = some out) :
    out.map (·.desired_days) = subjects.map (·.desired_days) := by
  rcases eq_or_ne (totalClaim (subjects.map initSubject)) 0 with htc | htc
  · match subjects, hout with
    | [], hout =>
      rw [fairscale_nil] at hout
      obtain rfl := Option.some.inj hout
      rfl
    | s :: rest, hout =>
      exfalso
      simp only [fairscale_exam_allocate, List.map_cons] at hout
      rw [show totalClaim (initSubject s :: rest.map initSubject) = 0 from by
        simpa using htc] at hout
      rw [firstPass_zero] at hout
      exact Option.noConfusion hout
  · rw [fairscale_eq_of_claim_ne subjects T htc] at hout
    rw [redistribute_desired T 10 _ _ out hout]
    simp [List.map_map, Function.comp]

/-! ### Exact exhaustion under convergence -/

lemma sum_desired_sub_alloc (l : List Subject) :
    (l.map (fun s => s.desired_days - s.allocated)).sum =
      sumDesired l - sumAllocated l := by
  induction l with
  | nil => simp
  | cons a rest ih =>
    simp only [List.map_cons, List.sum_cons, sumDesired_cons, sumAllocated_cons, ih]
    ring

lemma sumAllocated_eq_sumDesired (l : List Subject)
    (hall : ∀ s ∈ l, s.allocated = s.desired_days) :
    sumAllocated l = sumDesired l := by
  induction l with
  | nil => rfl
  | cons a rest ih =>
    simp only [sumAllocated_cons, sumDesired_cons]
    rw [hall a (by simp), ih (fun s hs => hall s (by simp [hs]))]

lemma all_zero_of_nonneg_sum_nonpos :
    ∀ l : List ℚ, (∀ x ∈ l, 0 ≤ x) → l.sum ≤ 0 → ∀ x ∈ l, x = 0 := by
  intro l
  induction l with
  | nil => intro _ _ x hx; cases hx
  | cons a rest ih =>
    intro hpos hsum x hx
    have ha : 0 ≤ a := hpos a (by simp)
    have hrest : 0 ≤ rest.sum := List.sum_nonneg (fun y hy => hpos y (by simp [hy]))
    rw [List.sum_cons] at hsum
    rcases List.mem_cons.mp hx with rfl | hx'
    · linarith
    · exact ih (fun y hy => hpos y (by simp [hy])) (by linarith) x hx'

/-- If every cap is respected and the caps sum to at most the handed-out
total, then every subject sits exactly at its cap. -/
lemma alloc_eq_desired_of_sum (out : List Subject)
    (hcap : ∀ s ∈ out, s.allocated ≤ s.desired_days)
    (hsum : sumDesired out ≤ sumAllocated out) :
    ∀ s ∈ out, s.allocated = s.desired_days := by
  have key : ∀ x ∈ out.map (fun s => s.desired_days - s.allocated), x = 0 := by
    apply all_zero_of_nonneg_sum_nonpos
    · intro x hx
      obtain ⟨s, hs, rfl⟩ := List.mem_map.mp hx
      linarith [hcap s hs]
    · rw [sum_desired_sub_alloc]
      linarith
  intro s hs
  have := key _ (List.mem_map.mpr ⟨s, hs, rfl⟩)
  linarith

/-- A converged output together with `sum desired ≥ total_days` forces
exact exhaustion of the budget. -/
lemma converged_sum_eq (T : ℚ) (out : List Subject)
    (hinv : AllocInv out) (hle : sumAllocated out ≤ T)
    (hdem : T ≤ sumDesired out) (hconv : Converged T out) :
    sumAllocated out = T := by
  rcases hconv with hrem | hcand
  · linarith
  · have hall : ∀ s ∈ out, s.allocated = s.desired_days := by
      intro s hs
      have hnotlt : ¬ s.allocated < s.desired_days := by
        intro hlt
        have : s ∈ out.filter (fun s => s.allocated < s.desired_days) :=
          List.mem_filter.mpr ⟨hs, by simpa using hlt⟩
        rw [hcand] at this
        cases this
      linarith [(hinv s hs).2.2, not_lt.mp hnotlt]
    have := sumAllocated_eq_sumDesired out hall
    linarith

/-! ### The loop can only fail on a zero weight sum -/

@[simp] lemma roundStep_weight (W R : ℚ) (s : Subject) :
    (roundStep W R s).weight = s.weight := by
  unfold roundStep; split <;> rfl

@[simp] lemma firstAlloc_weight (tc T : ℚ) (s : Subject) :
    (firstAlloc tc T s).weight = s.weight := rfl

lemma redistribute_isSome (T : ℚ) :
    ∀ (fuel : ℕ) (R : ℚ) (subs : List Subject), (∀ s ∈ subs, 0 < s.weight) →
      (redistribute T fuel R subs).isSome := by
  intro fuel
  induction fuel with
  | zero => intro R subs _; simp [redistribute]
  | succ fuel ih =>
    intro R subs hw
    simp only [redistribute]
    split
    · split
      · simp
      · split
        · rename_i hne hW
          exact absurd hW (candidates_weight_pos subs hw (by assumption)).ne'
        · apply ih
          intro s' hs'
          obtain ⟨s, hs, rfl⟩ := List.mem_map.mp hs'
          simpa using hw s hs
    · simp

/-! ## The claims -/

/-- C1.  For every list of subjects with attributes in `[1,100]` and
positive `desired_days`, and every `total_days > 0`, every subject
returned by `fairscale_exam_allocate` satisfies
`0 ≤ allocated ≤ desired_days`: the invariant is established by the
capped first pass and preserved by every redistribution iteration. -/
theorem cap_invariant_allocations (subjects : List Subject) (total_days : ℚ)
    (hv : ∀ s ∈ subjects, ValidSubject s) (hT : 0 < total_days)
    (out : List Subject)
    (hout : fairscale_exam_allocate subjects total_days = some out) :
    ∀ s ∈ out, 0 ≤ s.allocated ∧ s.allocated ≤ s.desired_days := by
  intro s hs
  obtain ⟨_, h0, hd⟩ := fairscale_some_inv subjects total_days out hv hT hout s hs
  exact ⟨h0, hd⟩

theorem cap_invariant_allocations_witness :
    0 ≤ rMid30.allocated ∧ rMid30.allocated ≤ rMid30.desired_days :=
  cap_invariant_allocations [sMid] 30 (by decide) (by norm_num) [rMid30]
    (by norm_num [fairscale_exam_allocate, initSubject, calculate_composite_weight,
      totalClaim, sumAllocated, firstPass, redistribute, roundStep, sMid, rMid30, min_def])
    rMid30 (List.mem_singleton.mpr rfl)

/-- C2.  The allocator never hands out more than `total_days`; and
whenever the demand covers the budget (`total_days ≤ sum desired_days`)
and the returned state is converged (the loop stopped because the
remaining budget reached zero or no subject was below its cap, rather
than because of the 10-iteration limit), the sum of allocations equals
`total_days` exactly. -/
theorem budget_conservation (subjects : List Subject) (total_days : ℚ)
    (hv : ∀ s ∈ subjects, ValidSubject s) (hT : 0 < total_days)
    (out : List Subject)
    (hout : fairscale_exam_allocate subjects total_days = some out) :
    sumAllocated out ≤ total_days ∧
      (total_days ≤ sumDesired subjects → Converged total_days out →
        sumAllocated out = total_days) := by
  have hle := fairscale_sum_le subjects total_days out hv hT hout
  refine ⟨hle, fun hdem hconv => ?_⟩
  have hinv := fairscale_some_inv subjects total_days out hv hT hout
  have hdes : sumDesired out = sumDesired subjects := by
    unfold sumDesired
    rw [fairscale_desired subjects total_days out hout]
  exact converged_sum_eq total_days out hinv hle (hdes ▸ hdem) hconv

theorem budget_conservation_witness :
    sumAllocated [rMid5] ≤ 5 ∧
      (5 ≤ sumDesired [sMid] → Converged 5 [rMid5] → sumAllocated [rMid5] = 5) :=
  budget_conservation [sMid] 5 (by decide) (by norm_num) [rMid5]
    (by norm_num [fairscale_exam_allocate, initSubject, calculate_composite_weight,
      totalClaim, sumAllocated, firstPass, redistribute, roundStep, sMid, rMid5, min_def])

/-- C3.  Over the documented ranges, `calculate_composite_weight` returns
exactly `(100 - preparation) * 0.35 + syllabus_size * 0.30 +
exam_weight * 0.15 + (100 - difficulty) * 0.20`, and the value is
non-negative.  Determinism and freedom from side effects hold by
construction: the embedding is a pure function of the four fields, and
so is the source (it only reads the four dictionary entries). -/
theorem composite_weight_formula (s : Subject) (h : ValidAttrs s) :
    calculate_composite_weight s =
      (100 - s.preparation) * (35 / 100) + s.syllabus * (30 / 100) +
        s.exam_weight * (15 / 100) + (100 - s.difficulty) * (20 / 100) ∧
      0 ≤ calculate_composite_weight s := by
  constructor
  · simp only [calculate_composite_weight]
    ring
  · linarith [ccw_ge_min s h]

theorem composite_weight_formula_witness :
    calculate_composite_weight sMid =
      (100 - sMid.preparation) * (35 / 100) + sMid.syllabus * (30 / 100) +
        sMid.exam_weight * (15 / 100) + (100 - sMid.difficulty) * (20 / 100) ∧
      0 ≤ calculate_composite_weight sMid :=
  composite_weight_formula sMid (by decide)

/-- C9.  On the empty subject list the allocator returns the empty list
and never raises: none of the loops of lines 19-31 executes its body, so
the division of line 29 is never reached even though `total_claim = 0`,
and the redistribution loop either never runs or finds no candidates. -/
theorem empty_input_returns_empty (total_days : ℚ) :
    fairscale_exam_allocate [] total_days = some [] :=
  fairscale_nil total_days

/-- C10.  Over the documented ranges (attributes in `[1,100]`,
`desired_days ≥ 1`) the composite weight is at least `0.45`; hence the
total claim of a non-empty list is strictly positive, and the allocator
always returns `some` result: both division sites (source lines 29
and 44) are reached only with a strictly positive divisor, for any
budget whatsoever. -/
theorem weight_bound_and_divisions_safe (subjects : List Subject) (total_days : ℚ)
    (hv : ∀ s ∈ subjects, ValidAttrs s ∧ 1 ≤ s.desired_days) :
    (∀ s ∈ subjects, 9 / 20 ≤ calculate_composite_weight s) ∧
      (subjects ≠ [] → 0 < totalClaim (subjects.map initSubject)) ∧
      (fairscale_exam_allocate subjects total_days).isSome := by
  have hv' : ∀ s ∈ subjects, ValidSubject s := fun s hs =>
    ⟨(hv s hs).1, lt_of_lt_of_le one_pos (hv s hs).2⟩
  refine ⟨fun s hs => ccw_ge_min s (hv s hs).1, fun hne =>
    totalClaim_init_pos subjects hv' hne, ?_⟩
  rcases eq_or_ne subjects [] with rfl | hne
  · rw [fairscale_nil]; rfl
  · have htc := totalClaim_init_pos subjects hv' hne
    rw [fairscale_eq_of_claim_ne subjects total_days htc.ne']
    apply redistribute_isSome
    intro s' hs'
    simp only [List.map_map, List.mem_map] at hs'
    obtain ⟨s, hs, rfl⟩ := hs'
    simpa using ccw_pos s (hv s hs).1

theorem weight_bound_and_divisions_safe_witness :
    (∀ s ∈ [sMid], 9 / 20 ≤ calculate_composite_weight s) ∧
      ([sMid] ≠ [] → 0 < totalClaim ([sMid].map initSubject)) ∧
      (fairscale_exam_allocate [sMid] 30).isSome :=
  weight_bound_and_divisions_safe [sMid] 30 (by decide)

/-! ### Permutation equivariance -/

/-- One unfolding of the loop, with the candidate list and its weight sum
written out. -/
lemma redistribute_succ (T : ℚ) (fuel : ℕ) (R : ℚ) (subs : List Subject) :
    redistribute T (fuel + 1) R subs =
      if 0 < R then
        if subs.filter (fun s => s.allocated < s.desired_days) = [] then some subs
        else if ((subs.filter (fun s => s.allocated < s.desired_days)).map
            (·.weight)).sum = 0 then none
        else
          redistribute T fuel
            (T - sumAllocated (subs.map (roundStep
              (((subs.filter (fun s => s.allocated < s.desired_days)).map
                (·.weight)).sum) R)))
            (subs.map (roundStep
              (((subs.filter (fun s => s.allocated < s.desired_days)).map
                (·.weight)).sum) R))
      else some subs := rfl

/-- The loop treats the subject list as a multiset: on two permuted
states it either fails on both, or applies one and the same per-record
function to both. -/
lemma redistribute_perm (T : ℚ) :
    ∀ (fuel : ℕ) (R : ℚ) (l₁ l₂ : List Subject), l₁.Perm l₂ →
      (redistribute T fuel R l₁ = none ∧ redistribute T fuel R l₂ = none) ∨
      ∃ g : Subject → Subject,
        redistribute T fuel R l₁ = some (l₁.map g) ∧
        redistribute T fuel R l₂ = some (l₂.map g) := by
  intro fuel
  induction fuel with
  | zero =>
    intro R l₁ l₂ _
    right
    exact ⟨id, by simp [redistribute], by simp [redistribute]⟩
  | succ fuel ih =>
    intro R l₁ l₂ hp
    by_cases hR : 0 < R
    · by_cases hc : l₁.filter (fun s => s.allocated < s.desired_days) = []
      · have hc₂ : l₂.filter (fun s => s.allocated < s.desired_days) = [] := by
          have hpf := hp.filter (fun s => s.allocated < s.desired_days)
          rw [hc] at hpf
          exact List.perm_nil.mp hpf.symm
        right
        refine ⟨id, ?_, ?_⟩
        · rw [redistribute_succ, if_pos hR, if_pos hc, List.map_id]
        · rw [redistribute_succ, if_pos hR, if_pos hc₂, List.map_id]
      · have hc₂ : ¬ l₂.filter (fun s => s.allocated < s.desired_days) = [] := by
          intro h0
          have hpf := hp.filter (fun s => s.allocated < s.desired_days)
          rw [h0] at hpf
          exact hc (List.perm_nil.mp hpf)
        have hWeq : ((l₂.filter (fun s => s.allocated < s.desired_days)).map
            (·.weight)).sum = ((l₁.filter (fun s => s.allocated < s.desired_days)).map
            (·.weight)).sum :=
          ((hp.filter _).map _).sum_eq.symm
        set W := ((l₁.filter (fun s => s.allocated < s.desired_days)).map
          (·.weight)).sum with hWdef
        have hp' := hp.map (roundStep W R)
        have hsum : sumAllocated (l₂.map (roundStep W R)) =
            sumAllocated (l₁.map (roundStep W R)) := by
          unfold sumAllocated
          exact ((hp'.map (fun s => s.allocated)).sum_eq).symm
        by_cases hW : W = 0
        · left
          constructor
          · rw [redistribute_succ, if_pos hR, if_neg hc, if_pos hW]
          · rw [redistribute_succ, if_pos hR, if_neg hc₂, hWeq, if_pos hW]
        · rcases ih (T - sumAllocated (l₁.map (roundStep W R))) _ _ hp' with
            ⟨h1, h2⟩ | ⟨g', h1, h2⟩
          · left
            constructor
            · rw [redistribute_succ, if_pos hR, if_neg hc, if_neg hW]
              exact h1
            · rw [redistribute_succ, if_pos hR, if_neg hc₂, hWeq, if_neg hW, hsum]
              exact h2
          · right
            refine ⟨fun s => g' (roundStep W R s), ?_, ?_⟩
            · rw [redistribute_succ, if_pos hR, if_neg hc, if_neg hW, h1,
                List.map_map]
              rfl
            · rw [redistribute_succ, if_pos hR, if_neg hc₂, hWeq, if_neg hW, hsum,
                h2, List.map_map]
              rfl
    · right
      refine ⟨id, ?_, ?_⟩
      · rw [redistribute_succ, if_neg hR, List.map_id]
      · rw [redistribute_succ, if_neg hR, List.map_id]

/-- C7.  The allocator is deterministic — it is a pure function of its
two arguments, so identical inputs give identical outputs by
construction — and permutation-equivariant: on two inputs that are
permutations of each other it either raises on both (`none`), or there
is a single per-record result function `g` applied to both lists, so the
reordered input yields exactly the correspondingly reordered output with
every subject's `weight`, `claim` and `allocated` unchanged. -/
theorem allocator_permutation_equivariant (total_days : ℚ) (l₁ l₂ : List Subject)
    (hp : l₁.Perm l₂) :
    (fairscale_exam_allocate l₁ total_days = none ∧
      fairscale_exam_allocate l₂ total_days = none) ∨
    ∃ g : Subject → Subject,
      fairscale_exam_allocate l₁ total_days = some (l₁.map g) ∧
      fairscale_exam_allocate l₂ total_days = some (l₂.map g) := by
  have hpi := hp.map initSubject
  have htceq : totalClaim (l₂.map initSubject) = totalClaim (l₁.map initSubject) := by
    unfold totalClaim
    exact ((hpi.map (fun s => s.claim)).sum_eq).symm
  rcases eq_or_ne (totalClaim (l₁.map initSubject)) 0 with htc | htc
  · rcases l₁ with _ | ⟨s₁, r₁⟩
    · obtain rfl : l₂ = [] := List.perm_nil.mp hp.symm
      right
      exact ⟨id, by rw [fairscale_nil, List.map_id], by rw [fairscale_nil, List.map_id]⟩
    · rcases l₂ with _ | ⟨s₂, r₂⟩
      · exact absurd (List.perm_nil.mp hp) (by simp)
      · left
        constructor
        · simp only [fairscale_exam_allocate, List.map_cons]
          rw [show totalClaim (initSubject s₁ :: r₁.map initSubject) = 0 from by
            simpa using htc]
          rw [firstPass_zero]
        · simp only [fairscale_exam_allocate, List.map_cons]
          rw [show totalClaim (initSubject s₂ :: r₂.map initSubject) = 0 from by
            simpa using htceq.trans htc]
          rw [firstPass_zero]
  · rw [fairscale_eq_of_claim_ne l₁ total_days htc,
      fairscale_eq_of_claim_ne l₂ total_days (htceq.trans_ne htc), htceq]
    set tc := totalClaim (l₁.map initSubject) with htcdef
    have hp1 := hpi.map (firstAlloc tc total_days)
    have hsum : sumAllocated ((l₂.map initSubject).map (firstAlloc tc total_days)) =
        sumAllocated ((l₁.map initSubject).map (firstAlloc tc total_days)) := by
      unfold sumAllocated
      exact ((hp1.map (fun s => s.allocated)).sum_eq).symm
    rw [hsum]
    rcases redistribute_perm total_days 10
        (total_days - sumAllocated ((l₁.map initSubject).map (firstAlloc tc total_days)))
        _ _ hp1 with ⟨h1, h2⟩ | ⟨g', h1, h2⟩
    · exact Or.inl ⟨h1, h2⟩
    · right
      refine ⟨fun s => g' (firstAlloc tc total_days (initSubject s)), ?_, ?_⟩
      · rw [h1, List.map_map, List.map_map]
        rfl
      · rw [h2, List.map_map, List.map_map]
        rfl

theorem allocator_permutation_equivariant_witness :
    (fairscale_exam_allocate [sMed, sMid] 30 = none ∧
      fairscale_exam_allocate [sMid, sMed] 30 = none) ∨
    ∃ g : Subject → Subject,
      fairscale_exam_allocate [sMed, sMid] 30 = some ([sMed, sMid].map g) ∧
      fairscale_exam_allocate [sMid, sMed] 30 = some ([sMid, sMed].map g) :=
  allocator_permutation_equivariant 30 [sMed, sMid] [sMid, sMed]
    (List.Perm.swap sMid sMed [])

/-! ### Degenerate total claim (C4) -/

/-- C4.  The spec (sections 4.2, 7 and Scenario 4) requires the
degenerate case `total_claim = 0` to be handled without raising and to
yield all-zero allocations; the source does not guard the division of
line 29, so on a non-empty list whose subjects all have
`desired_days = 0` it raises `ZeroDivisionError` (`none` in this
embedding) instead. -/
theorem degenerate_claims_raise :
    fairscale_exam_allocate [sZero] 30 = none := by
  norm_num [fairscale_exam_allocate, initSubject, calculate_composite_weight,
    totalClaim, firstPass, sZero]

/-! ### Non-positive budgets pass through unvalidated (C8) -/

lemma sum_firstAlloc_exact (tc T : ℚ) :
    ∀ l : List Subject, (∀ s ∈ l, (s.claim / tc) * T ≤ s.desired_days) →
      sumAllocated (l.map (firstAlloc tc T)) = totalClaim l * (T / tc) := by
  intro l
  induction l with
  | nil => simp
  | cons s rest ih =>
    intro hle
    have hhead : (firstAlloc tc T s).allocated = (s.claim / tc) * T :=
      min_eq_left (hle s (by simp))
    simp only [List.map_cons, sumAllocated_cons, totalClaim_cons, hhead,
      ih (fun x hx => hle x (by simp [hx]))]
    ring

lemma redistribute_of_nonpos (T : ℚ) (fuel : ℕ) (R : ℚ) (subs : List Subject)
    (h : ¬ 0 < R) : redistribute T fuel R subs = some subs := by
  cases fuel with
  | zero => rfl
  | succ fuel => rw [redistribute_succ, if_neg h]

/-- C8 (amended).  The core performs no budget validation: with
`total_days ≤ 0` it neither rejects nor raises but deterministically
returns the first-pass result, in which every subject's `allocated` is
its claim share of the non-positive budget, hence `≤ 0` (and negative
whenever `total_days < 0`).  The `total_days ≥ 1` bound is enforced only
by the collaborator input layer (source line 62, `min_value=1`). -/
theorem nonpositive_budget_passthrough (subjects : List Subject) (total_days : ℚ)
    (hv : ∀ s ∈ subjects, ValidSubject s) (hT : total_days ≤ 0) :
    ∃ out, fairscale_exam_allocate subjects total_days = some out ∧
      ∀ s ∈ out, s.allocated ≤ 0 := by
  rcases eq_or_ne subjects [] with rfl | hne
  · exact ⟨[], fairscale_nil total_days, fun s hs => absurd hs (by simp)⟩
  · have htc := totalClaim_init_pos subjects hv hne
    have hle : ∀ s ∈ subjects.map initSubject,
        (s.claim / totalClaim (subjects.map initSubject)) * total_days ≤
          s.desired_days := by
      intro s hs
      obtain ⟨t, ht, rfl⟩ := List.mem_map.mp hs
      obtain ⟨hw, hc, hd⟩ := initSubject_mem_valid t (hv t ht)
      have : ((initSubject t).claim / totalClaim (subjects.map initSubject)) *
          total_days ≤ 0 := by
        have hfrac : 0 ≤ (initSubject t).claim / totalClaim (subjects.map initSubject) :=
          le_of_lt (div_pos hc htc)
        exact mul_nonpos_of_nonneg_of_nonpos hfrac hT
      simpa using this.trans hd.le
    have hsum : sumAllocated ((subjects.map initSubject).map
        (firstAlloc (totalClaim (subjects.map initSubject)) total_days)) = total_days := by
      rw [sum_firstAlloc_exact _ _ _ hle]
      field_simp
    rw [fairscale_eq_of_claim_ne subjects total_days htc.ne', hsum,
      redistribute_of_nonpos _ _ _ _ (by simp)]
    refine ⟨_, rfl, ?_⟩
    intro s' hs'
    simp only [List.map_map, List.mem_map] at hs'
    obtain ⟨t, ht, rfl⟩ := hs'
    obtain ⟨hw, hc, hd⟩ := initSubject_mem_valid t (hv t ht)
    have hfrac : 0 ≤ (initSubject t).claim / totalClaim (subjects.map initSubject) :=
      le_of_lt (div_pos hc htc)
    have hsh : ((initSubject t).claim / totalClaim (subjects.map initSubject)) *
        total_days ≤ 0 := mul_nonpos_of_nonneg_of_nonpos hfrac hT
    simpa [Function.comp, firstAlloc] using le_trans (min_le_left _ _) hsh

theorem nonpositive_budget_passthrough_witness :
    ∃ out, fairscale_exam_allocate [sMid] (-1) = some out ∧
      ∀ s ∈ out, s.allocated ≤ 0 :=
  nonpositive_budget_passthrough [sMid] (-1) (by decide) (by norm_num)

/-! ### Monotonicity (C6) -/

lemma totalClaim_append (l₁ l₂ : List Subject) :
    totalClaim (l₁ ++ l₂) = totalClaim l₁ + totalClaim l₂ := by
  simp [totalClaim]

lemma totalClaim_init_nonneg (l : List Subject)
    (hv : ∀ s ∈ l, ValidSubject s) : 0 ≤ totalClaim (l.map initSubject) := by
  unfold totalClaim
  apply List.sum_nonneg
  intro x hx
  simp only [List.map_map, List.mem_map] at hx
  obtain ⟨s, hs, rfl⟩ := hx
  simp only [Function.comp_apply, initSubject_claim]
  exact (mul_pos (ccw_pos s (hv s hs).1) (hv s hs).2).le

/-- C6 (amended).  Monotonicity in a subject's weight holds for the
initial proportional pass: raising one subject's composite weight
(its `desired_days` and all other subjects unchanged) never decreases
that subject's first-pass allocation and never increases any other
subject's first-pass allocation.  For the full algorithm with the
redistribution loop BOTH halves are false, as the two instances of the
counterexample show: another subject's final allocation can grow, and
the boosted subject's own final allocation can shrink (a cap-threshold
flip delays the bounce cascade and the 10-iteration limit cuts off the
recovery).  The retreat to the first pass is therefore forced for both
conjuncts. -/
theorem initial_pass_monotonicity (pre post : List Subject) (s s' : Subject)
    (total_days : ℚ)
    (hvp : ∀ x ∈ pre ++ post, ValidSubject x)
    (hvs : ValidSubject s) (hvs' : ValidSubject s')
    (hT : 0 < total_days)
    (hd : s'.desired_days = s.desired_days)
    (hw : calculate_composite_weight s ≤ calculate_composite_weight s') :
    (firstAlloc (totalClaim ((pre ++ s :: post).map initSubject)) total_days
        (initSubject s)).allocated ≤
      (firstAlloc (totalClaim ((pre ++ s' :: post).map initSubject)) total_days
        (initSubject s')).allocated ∧
    ∀ x ∈ pre ++ post,
      (firstAlloc (totalClaim ((pre ++ s' :: post).map initSubject)) total_days
          (initSubject x)).allocated ≤
        (firstAlloc (totalClaim ((pre ++ s :: post).map initSubject)) total_days
          (initSubject x)).allocated := by
  have hA : 0 ≤ totalClaim (pre.map initSubject) :=
    totalClaim_init_nonneg pre (fun x hx => hvp x (by simp [hx]))
  have hB : 0 ≤ totalClaim (post.map initSubject) :=
    totalClaim_init_nonneg post (fun x hx => hvp x (by simp [hx]))
  set w := calculate_composite_weight s with hwdef
  set w' := calculate_composite_weight s' with hwdef'
  have hwpos : 0 < w := ccw_pos s hvs.1
  have hwpos' : 0 < w' := ccw_pos s' hvs'.1
  have hdpos : 0 < s.desired_days := hvs.2
  set A := totalClaim (pre.map initSubject) with hAdef
  set B := totalClaim (post.map initSubject) with hBdef
  have htc : totalClaim ((pre ++ s :: post).map initSubject) =
      A + (w * s.desired_days + B) := by
    rw [List.map_append, totalClaim_append, List.map_cons, totalClaim_cons]
    simp
  have htc' : totalClaim ((pre ++ s' :: post).map initSubject) =
      A + (w' * s.desired_days + B) := by
    rw [List.map_append, totalClaim_append, List.map_cons, totalClaim_cons]
    simp [hd]
  have htcpos : 0 < A + (w * s.desired_days + B) := by positivity
  have htcpos' : 0 < A + (w' * s.desired_days + B) := by positivity
  constructor
  · rw [htc, htc']
    show min ((initSubject s).claim / (A + (w * s.desired_days + B)) * total_days)
        (initSubject s).desired_days ≤
      min ((initSubject s').claim / (A + (w' * s.desired_days + B)) * total_days)
        (initSubject s').desired_days
    simp only [initSubject_claim, initSubject_desired, ← hwdef, ← hwdef', hd]
    apply min_le_min _ le_rfl
    apply mul_le_mul_of_nonneg_right _ hT.le
    rw [div_le_div_iff₀ htcpos htcpos']
    nlinarith [mul_nonneg (mul_nonneg (sub_nonneg.mpr hw) hdpos.le) (add_nonneg hA hB)]
  · intro x hx
    rw [htc, htc']
    show min ((initSubject x).claim / (A + (w' * s.desired_days + B)) * total_days)
        (initSubject x).desired_days ≤
      min ((initSubject x).claim / (A + (w * s.desired_days + B)) * total_days)
        (initSubject x).desired_days
    apply min_le_min _ le_rfl
    apply mul_le_mul_of_nonneg_right _ hT.le
    have hcx : 0 ≤ (initSubject x).claim := by
      simp only [initSubject_claim]
      exact (mul_pos (ccw_pos x (hvp x hx).1) (hvp x hx).2).le
    apply div_le_div_of_nonneg_left hcx htcpos
    nlinarith [mul_nonneg (mul_nonneg (sub_nonneg.mpr hw) hdpos.le) (add_nonneg hA hB)]

theorem initial_pass_monotonicity_witness :
    (firstAlloc (totalClaim (([] ++ sMid :: [sMed]).map initSubject)) 30
        (initSubject sMid)).allocated ≤
      (firstAlloc (totalClaim (([] ++ sMidBoost :: [sMed]).map initSubject)) 30
        (initSubject sMidBoost)).allocated ∧
    ∀ x ∈ ([] : List Subject) ++ [sMed],
      (firstAlloc (totalClaim (([] ++ sMidBoost :: [sMed]).map initSubject)) 30
          (initSubject x)).allocated ≤
        (firstAlloc (totalClaim (([] ++ sMid :: [sMed]).map initSubject)) 30
          (initSubject x)).allocated :=
  initial_pass_monotonicity [] [sMed] sMid sMidBoost 30 (by decide) (by decide)
    (by decide) (by norm_num) rfl
    (by norm_num [calculate_composite_weight, sMid, sMidBoost])

set_option maxHeartbeats 8000000 in
/-- C6 (counterexample to the claim as stated): both halves of the
full-algorithm claim fail.
First instance: raising only subject `C`'s weight (syllabus 56 to 62;
every `desired_days` and both other subjects unchanged) makes subject
`A`'s final allocation *increase* from `3866531/435624` to
`3975773/444192`, refuting "no other subject's allocated value
increases".
Second instance: raising only subject `o6s11`'s weight (syllabus
`1` to `1 + 1/10^8`, weight `1` to `1 + 3/10^9`) makes `o6s11`'s OWN
final allocation *decrease* by about `6.2e-6` days, refuting "the
subject with the larger weight receives an allocated value at least as
large as before": the bump tips `o6s10` just below its round-9 cap
threshold, so it stays a candidate through round 10, absorbs half of
the final remainder, and the 10-iteration limit cuts the loop before
that half can flow back. -/
theorem monotonicity_counterexample :
    (calculate_composite_weight c6c < calculate_composite_weight c6cBoost ∧
    c6cBoost.desired_days = c6c.desired_days ∧
    fairscale_exam_allocate [c6a, c6b, c6c] 38 = some [c6outA, c6outB, c6outC] ∧
    fairscale_exam_allocate [c6a, c6b, c6cBoost] 38 =
      some [c6outABoost, c6outBBoost, c6outCBoost] ∧
    c6outA.allocated < c6outABoost.allocated) ∧
    (calculate_composite_weight o6s11 < calculate_composite_weight o6s11b ∧
    o6s11b.desired_days = o6s11.desired_days ∧
    fairscale_exam_allocate [o6s0, o6s1, o6s2, o6s3, o6s4, o6s5, o6s6, o6s7,
      o6s8, o6s9, o6s10, o6s11] 300 =
      some [o6r0, o6r1, o6r2, o6r3, o6r4, o6r5, o6r6, o6r7, o6r8, o6r9, o6r10,
        o6r11] ∧
    fairscale_exam_allocate [o6s0, o6s1, o6s2, o6s3, o6s4, o6s5, o6s6, o6s7,
      o6s8, o6s9, o6s10, o6s11b] 300 =
      some [o6b0, o6b1, o6b2, o6b3, o6b4, o6b5, o6b6, o6b7, o6b8, o6b9, o6b10,
        o6b11] ∧
    o6b11.allocated < o6r11.allocated) := by
  refine ⟨⟨?_, rfl, ?_, ?_, ?_⟩, ⟨?_, rfl, ?_, ?_, ?_⟩⟩
  · norm_num [calculate_composite_weight, c6c, c6cBoost]
  · norm_num [fairscale_exam_allocate, initSubject, calculate_composite_weight,
      totalClaim, sumAllocated, firstPass, redistribute, roundStep, min_def,
      List.cons_ne_nil, c6a, c6b, c6c, c6outA, c6outB, c6outC]
  · norm_num [fairscale_exam_allocate, initSubject, calculate_composite_weight,
      totalClaim, sumAllocated, firstPass, redistribute, roundStep, min_def,
      List.cons_ne_nil, c6a, c6b, c6cBoost, c6outABoost, c6outBBoost, c6outCBoost]
  · norm_num [c6outA, c6outABoost]
  · norm_num [calculate_composite_weight, o6s11, o6s11b]
  · norm_num [fairscale_exam_allocate, initSubject, calculate_composite_weight,
      totalClaim, sumAllocated, firstPass, redistribute, roundStep, min_def,
      List.cons_ne_nil, o6s0, o6s1, o6s2, o6s3, o6s4, o6s5, o6s6, o6s7, o6s8,
      o6s9, o6s10, o6s11, o6r0, o6r1, o6r2, o6r3, o6r4, o6r5, o6r6, o6r7, o6r8,
      o6r9, o6r10, o6r11]
  · norm_num [fairscale_exam_allocate, initSubject, calculate_composite_weight,
      totalClaim, sumAllocated, firstPass, redistribute, roundStep, min_def,
      List.cons_ne_nil, o6s0, o6s1, o6s2, o6s3, o6s4, o6s5, o6s6, o6s7, o6s8,
      o6s9, o6s10, o6s11b, o6b0, o6b1, o6b2, o6b3, o6b4, o6b5, o6b6, o6b7, o6b8,
      o6b9, o6b10, o6b11]
  · norm_num [o6b11, o6r11]

/-! ### Full allocation under slack (C5) -/

/-- C5 (amended).  If the demand fits in the budget
(`sum desired_days ≤ total_days`) and the returned state is converged —
the loop stopped because the remaining budget reached zero or because no
subject was below its cap, rather than being cut off by the 10-iteration
limit — then every subject's `allocated` equals its `desired_days`
exactly.  The convergence proviso is forced by the counterexample: the
iteration limit can strand a subject below its cap even under slack. -/
theorem full_allocation_when_slack (subjects : List Subject) (total_days : ℚ)
    (hv : ∀ s ∈ subjects, ValidSubject s) (hT : 0 < total_days)
    (hdem : sumDesired subjects ≤ total_days) (out : List Subject)
    (hout : fairscale_exam_allocate subjects total_days = some out)
    (hconv : Converged total_days out) :
    ∀ s ∈ out, s.allocated = s.desired_days := by
  have hinv := fairscale_some_inv subjects total_days out hv hT hout
  have hle := fairscale_sum_le subjects total_days out hv hT hout
  have hdes : sumDesired out = sumDesired subjects := by
    unfold sumDesired
    rw [fairscale_desired subjects total_days out hout]
  rcases hconv with hrem | hcand
  · exact alloc_eq_desired_of_sum out (fun s hs => (hinv s hs).2.2)
      (by rw [hdes]; linarith)
  · intro s hs
    have hnotlt : ¬ s.allocated < s.desired_days := by
      intro hlt
      have : s ∈ out.filter (fun s => s.allocated < s.desired_days) :=
        List.mem_filter.mpr ⟨hs, by simpa using hlt⟩
      rw [hcand] at this
      cases this
    linarith [(hinv s hs).2.2, not_lt.mp hnotlt]

theorem full_allocation_when_slack_witness :
    rMid30.allocated = rMid30.desired_days :=
  full_allocation_when_slack [sMid] 30 (by decide) (by norm_num)
    (by norm_num [sumDesired, sMid]) [rMid30]
    (by norm_num [fairscale_exam_allocate, initSubject, calculate_composite_weight,
      totalClaim, sumAllocated, firstPass, redistribute, roundStep, sMid, rMid30,
      min_def])
    (Or.inr (by norm_num [rMid30]))
    rMid30 (List.mem_singleton.mpr rfl)

set_option maxHeartbeats 4000000 in
/-- C5 (counterexample to the claim as stated).  A valid non-empty
12-subject list whose total demand fits in the budget, on which the
returned allocation leaves subject `c5s11` about 6.64 days short of its
cap — far beyond any floating-point tolerance — because the loop is cut
off by the 10-iteration limit. -/
theorem full_allocation_counterexample :
    (∀ s ∈ [c5s0, c5s1, c5s2, c5s3, c5s4, c5s5, c5s6, c5s7, c5s8, c5s9, c5s10,
      c5s11], ValidSubject s) ∧
    sumDesired [c5s0, c5s1, c5s2, c5s3, c5s4, c5s5, c5s6, c5s7, c5s8, c5s9, c5s10,
      c5s11] ≤ c5T ∧
    0 < c5T ∧
    fairscale_exam_allocate [c5s0, c5s1, c5s2, c5s3, c5s4, c5s5, c5s6, c5s7, c5s8,
      c5s9, c5s10, c5s11] c5T =
      some [c5r0, c5r1, c5r2, c5r3, c5r4, c5r5, c5r6, c5r7, c5r8, c5r9, c5r10,
        c5r11] ∧
    c5r11.allocated < c5r11.desired_days := by
  refine ⟨?_, ?_, ?_, ?_, ?_⟩
  · norm_num [ValidSubject, ValidAttrs, c5s0, c5s1, c5s2, c5s3, c5s4, c5s5, c5s6,
      c5s7, c5s8, c5s9, c5s10, c5s11]
  · norm_num [sumDesired, c5s0, c5s1, c5s2, c5s3, c5s4, c5s5, c5s6, c5s7, c5s8,
      c5s9, c5s10, c5s11, c5T]
  · norm_num [c5T]
  · norm_num [fairscale_exam_allocate, initSubject, calculate_composite_weight,
      totalClaim, sumAllocated, firstPass, redistribute, roundStep, min_def,
      List.cons_ne_nil,
      c5s0, c5s1, c5s2, c5s3, c5s4, c5s5, c5s6, c5s7, c5s8, c5s9, c5s10, c5s11,
      c5r0, c5r1, c5r2, c5r3, c5r4, c5r5, c5r6, c5r7, c5r8, c5r9, c5r10, c5r11, c5T]
  · norm_num [c5r11]

/-- C8 (counterexample to the claim as stated).  Called directly with the
non-positive budget `total_days = -1`, the core does not reject: it
returns a result, and that result carries a negative allocation —
exactly what the claim says cannot happen. -/
theorem nonpositive_budget_not_rejected :
    fairscale_exam_allocate [sMid] (-1) = some [rMidNeg] ∧ rMidNeg.allocated < 0 := by
  constructor
  · norm_num [fairscale_exam_allocate, initSubject, calculate_composite_weight,
      totalClaim, sumAllocated, firstPass, redistribute, roundStep, sMid, rMidNeg, min_def]
  · norm_num [rMidNeg]

end FairscaleExamPlanner
